import Mathlib

/-!
Shallow embedding of the carbon-clickhouse test-fixture lifecycle manager.

The manager owns one ephemeral container instance: `Start` validates the
caller-supplied spec, reserves a free TCP address (twice, the second
allocation winning), creates a temporary scratch directory, renders a
configuration template into it, and launches a detached container;
`Stop`/`Delete` invoke the runtime's stop/rm operations; `Cleanup`
best-effort removes the scratch directory.

External effects (port allocator, temp-dir creation, template engine,
subprocess execution, recursive removal) are modelled as oracle inputs in
environment records, and their observable side effects are recorded in an
explicit `World`: the set of existing scratch directories and files, the
list of subprocess invocations (binary, argument list), and the parameter
pairs passed to template rendering.
-/

/-- Fixed, well-known container name (source constant `CchContainerName`). -/
def CchContainerName : String := "carbon-clickhouse-gch-test"

/-- Fixture state: caller-supplied spec fields (`Version`, `Docker`,
`DockerImage`, `Template`, `TZ`) plus the tracked runtime state
(`address`, `container`, `storeDir`), exactly the fields of the Go struct. -/
structure CarbonClickhouse where
  Version : String := ""
  Docker : String := ""
  DockerImage : String := ""
  Template : String := ""
  TZ : String := ""
  address : String := ""
  container : String := ""
  storeDir : String := ""
deriving Repr, DecidableEq

/-- Observable outside world: existing directories and files, subprocess
invocations performed (binary and argument list, in order), and the
`(CLICKHOUSE_URL, CCH_ADDR)` parameter pairs passed to template rendering. -/
structure World where
  dirs : List String := []
  files : List String := []
  invocations : List (String × List String) := []
  renderCalls : List (String × String) := []
deriving Repr, DecidableEq

/-- Result of one subprocess run: combined stdout/stderr and the error
(`none` means a zero exit). -/
structure ExecResult where
  out : String := ""
  err : Option String := none
deriving Repr, DecidableEq

/-- Result of one manager operation: the new fixture state, the new world,
and the Go-style `(error, string)` return pair. -/
structure OpResult where
  c : CarbonClickhouse
  w : World
  err : Option String
  out : String
deriving Repr, DecidableEq

/-- Model of `os.RemoveAll dir`: when the removal succeeds (`ok`), the
directory and every file under it disappear; on failure nothing changes.
Scratch directories are fresh distinct temp dirs, never nested in one
another, so removing exact matches from `dirs` is faithful. -/
def removeAllDir (w : World) (d : String) (ok : Bool) : World :=
  if ok then
    { w with
      dirs := w.dirs.filter (fun x => x ≠ d),
      files := w.files.filter (fun f => ¬ String.isPrefixOf d f) }
  else w

/-- `Cleanup`: if a scratch directory is tracked, best-effort remove it
(the removal error is discarded) and clear the tracked path; otherwise a
no-op. Mirrors the Go method line by line. -/
def CarbonClickhouse.Cleanup (c : CarbonClickhouse) (w : World) (removeOk : Bool) :
    CarbonClickhouse × World :=
  if c.storeDir ≠ "" then
    ({ c with storeDir := "" }, removeAllDir w c.storeDir removeOk)
  else
    (c, w)

/-- Oracle inputs for one `Delete` call: the outcome of `docker rm` and
whether the `os.RemoveAll` inside the unconditional `Cleanup` succeeds. -/
structure DeleteEnv where
  rm : ExecResult := {}
  removeOk : Bool := true
deriving Repr, DecidableEq

/-- `Delete`: no-op when no container is tracked; otherwise runs
`<docker> rm <container>`, clears the tracked container only on success,
unconditionally performs `Cleanup`, and returns the rm error and output. -/
def CarbonClickhouse.Delete (c : CarbonClickhouse) (w : World) (env : DeleteEnv) : OpResult :=
  if c.container = "" then ⟨c, w, none, ""⟩
  else
    let w := { w with invocations := w.invocations ++ [(c.Docker, ["rm", c.container])] }
    let c := if env.rm.err = none then { c with container := "" } else c
    let p := c.Cleanup w env.removeOk
    ⟨p.1, p.2, env.rm.err, env.rm.out⟩

/-- Oracle inputs for one `Stop` call: the outcome of `docker stop` plus a
`DeleteEnv` for the chained `Delete` when it is taken. -/
structure StopEnv where
  stop : ExecResult := {}
  del : DeleteEnv := {}
deriving Repr, DecidableEq

/-- `Stop`: no-op when no container is tracked; otherwise runs
`<docker> stop <container>`; when the stop succeeded and deletion was
requested it chains into `Delete` and returns its result, else it returns
the stop invocation's error and output. -/
def CarbonClickhouse.Stop (c : CarbonClickhouse) (w : World) (env : StopEnv)
    (delete : Bool) : OpResult :=
  if c.container = "" then ⟨c, w, none, ""⟩
  else
    let w := { w with invocations := w.invocations ++ [(c.Docker, ["stop", c.container])] }
    if env.stop.err = none ∧ delete = true then
      c.Delete w env.del
    else
      ⟨c, w, env.stop.err, env.stop.out⟩

/-- `Address` accessor: the tracked host:port string. -/
def CarbonClickhouse.Address (c : CarbonClickhouse) : String := c.address

/-- `Container` accessor: the tracked container identifier. -/
def CarbonClickhouse.Container (c : CarbonClickhouse) : String := c.container

/-- `path.Join` on a non-empty clean directory and a file name. -/
def joinPath (a b : String) : String := a ++ "/" ++ b

/-- Argument list of the `docker run` invocation built by `Start`, exactly
as the source assembles `cchStart`. -/
def cchStartArgs (c : CarbonClickhouse) (clickhouseContainer : String) : List String :=
  let args := ["run", "-d", "--name", c.container, "-p", c.address ++ ":2003",
    "-v", c.storeDir ++ ":/etc/carbon-clickhouse", "--link", clickhouseContainer]
  let args := if c.TZ ≠ "" then args ++ ["-e", "TZ=" ++ c.TZ] else args
  args ++ [c.DockerImage ++ ":" ++ c.Version]

/-- Oracle inputs for one `Start` call, in the order the source consumes
them: the two `getFreeTCPPort` results (value and error, as a Go
multi-value return), the `ioutil.TempDir` result, the template
`ParseFiles` error, the config-file `OpenFile` error, the
`ExecuteTemplate` error, the `docker run` result, and whether the
`os.RemoveAll` inside any failure-path `Cleanup` succeeds. -/
structure StartEnv where
  port1 : String × Option String := ("", none)
  tempDir : String × Option String := ("", none)
  port2 : String × Option String := ("", none)
  parseErr : Option String := none
  openErr : Option String := none
  renderErr : Option String := none
  run : ExecResult := {}
  removeOk : Bool := true
deriving Repr, DecidableEq

/-- `Start`, translated line by line from the source: validation,
defaulting of `Docker` and `DockerImage`, first port allocation, container
name assignment, scratch-directory creation, second port allocation
(overwriting the first), template parse, config-file creation, template
render (each failure from the second port allocation on triggers
`Cleanup`), and finally the `docker run` invocation whose error and
combined output are returned verbatim with no cleanup. -/
def CarbonClickhouse.Start (c : CarbonClickhouse) (w : World) (env : StartEnv)
    (testDir clickhouseURL clickhouseContainer : String) : OpResult :=
  if c.Version = "" then ⟨c, w, some "version not set", ""⟩ else
  let c := if c.Docker = "" then { c with Docker := "docker" } else c
  let c := if c.DockerImage = "" then { c with DockerImage := "lomik/carbon-clickhouse" } else c
  let c := { c with address := env.port1.1 }
  match env.port1.2 with
  | some e => ⟨c, w, some e, ""⟩
  | none =>
  let c := { c with container := CchContainerName }
  let c := { c with storeDir := env.tempDir.1 }
  match env.tempDir.2 with
  | some e => ⟨c, w, some e, ""⟩
  | none =>
  let w := { w with dirs := env.tempDir.1 :: w.dirs }
  let c := { c with address := env.port2.1 }
  match env.port2.2 with
  | some e =>
    let p := c.Cleanup w env.removeOk
    ⟨p.1, p.2, some e, ""⟩
  | none =>
  match env.parseErr with
  | some e =>
    let p := c.Cleanup w env.removeOk
    ⟨p.1, p.2, some e, ""⟩
  | none =>
  let configFile := joinPath c.storeDir "carbon-clickhouse.conf"
  match env.openErr with
  | some e =>
    let p := c.Cleanup w env.removeOk
    ⟨p.1, p.2, some e, ""⟩
  | none =>
  let w := { w with files := configFile :: w.files }
  let w := { w with renderCalls := w.renderCalls ++ [(clickhouseURL, c.address)] }
  match env.renderErr with
  | some e =>
    let p := c.Cleanup w env.removeOk
    ⟨p.1, p.2, some e, ""⟩
  | none =>
  let w := { w with invocations := w.invocations ++ [(c.Docker, cchStartArgs c clickhouseContainer)] }
  ⟨c, w, env.run.err, env.run.out⟩

example :
    (CarbonClickhouse.Start { Version := "1.2.3" } {} {} "/tests" "ch:8123" "ch").err
      = (({} : StartEnv).run.err) := rfl

/-- `Cleanup` never changes the `Version` field. -/
@[simp] theorem cleanup_fst_Version (c : CarbonClickhouse) (w : World) (ok : Bool) :
    ((c.Cleanup w ok).1).Version = c.Version := by
  unfold CarbonClickhouse.Cleanup
  split <;> rfl

/-- `Cleanup` never changes the `Docker` field. -/
@[simp] theorem cleanup_fst_Docker (c : CarbonClickhouse) (w : World) (ok : Bool) :
    ((c.Cleanup w ok).1).Docker = c.Docker := by
  unfold CarbonClickhouse.Cleanup
  split <;> rfl

/-- `Cleanup` never changes the `DockerImage` field. -/
@[simp] theorem cleanup_fst_DockerImage (c : CarbonClickhouse) (w : World) (ok : Bool) :
    ((c.Cleanup w ok).1).DockerImage = c.DockerImage := by
  unfold CarbonClickhouse.Cleanup
  split <;> rfl

/-- `Cleanup` never changes the tracked container identifier. -/
@[simp] theorem cleanup_fst_container (c : CarbonClickhouse) (w : World) (ok : Bool) :
    ((c.Cleanup w ok).1).container = c.container := by
  unfold CarbonClickhouse.Cleanup
  split <;> rfl

/-- `Cleanup` never changes the tracked address. -/
@[simp] theorem cleanup_fst_address (c : CarbonClickhouse) (w : World) (ok : Bool) :
    ((c.Cleanup w ok).1).address = c.address := by
  unfold CarbonClickhouse.Cleanup
  split <;> rfl

/-- After `Cleanup` the tracked scratch path is always empty. -/
@[simp] theorem cleanup_fst_storeDir (c : CarbonClickhouse) (w : World) (ok : Bool) :
    ((c.Cleanup w ok).1).storeDir = "" := by
  unfold CarbonClickhouse.Cleanup
  split <;> simp_all

/-- `Cleanup` performs no subprocess invocation. -/
@[simp] theorem cleanup_snd_invocations (c : CarbonClickhouse) (w : World) (ok : Bool) :
    ((c.Cleanup w ok).2).invocations = w.invocations := by
  unfold CarbonClickhouse.Cleanup removeAllDir
  split <;> [skip; rfl]
  split <;> rfl

/-- `Cleanup` performs no template rendering. -/
@[simp] theorem cleanup_snd_renderCalls (c : CarbonClickhouse) (w : World) (ok : Bool) :
    ((c.Cleanup w ok).2).renderCalls = w.renderCalls := by
  unfold CarbonClickhouse.Cleanup removeAllDir
  split <;> [skip; rfl]
  split <;> rfl

/-- C7: `Stop` (for any `alsoDelete`) and `Delete` on an instance whose
tracked container identifier is empty return `(nil, "")`, leave the state
and world unchanged, and hence invoke no subprocess. -/
theorem C7_stop_delete_noop (c : CarbonClickhouse) (w : World)
    (h : c.container = "") :
    (∀ env delete, c.Stop w env delete = ⟨c, w, none, ""⟩) ∧
    (∀ env, c.Delete w env = ⟨c, w, none, ""⟩) := by
  constructor
  · intro env delete
    simp [CarbonClickhouse.Stop, h]
  · intro env
    simp [CarbonClickhouse.Delete, h]

/-- C6: `Cleanup` on an instance with a tracked scratch directory clears
the tracked path whatever the underlying removal does, removes the
directory from the world when removal succeeds, and a second `Cleanup` is
a no-op, so the directory is removed at most once; on any instance with no
tracked scratch directory `Cleanup` is a no-op; the fixture state never
depends on the removal outcome, so removal errors are never surfaced. -/
theorem C6_cleanup_idempotent (c : CarbonClickhouse) (w : World)
    (h : c.storeDir ≠ "") :
    (∀ ok, ((c.Cleanup w ok).1).storeDir = "") ∧
    c.storeDir ∉ (c.Cleanup w true).2.dirs ∧
    (∀ ok ok₂,
      ((c.Cleanup w ok).1).Cleanup (c.Cleanup w ok).2 ok₂ = c.Cleanup w ok) ∧
    (∀ ok, (c.Cleanup w ok).1 = (c.Cleanup w true).1) ∧
    (∀ c' w' ok, c'.storeDir = "" → CarbonClickhouse.Cleanup c' w' ok = (c', w')) := by
  refine ⟨?_, ?_, ?_, ?_, ?_⟩
  · intro ok
    simp [CarbonClickhouse.Cleanup, h]
  · simp [CarbonClickhouse.Cleanup, removeAllDir, h, List.mem_filter]
  · intro ok ok₂
    simp [CarbonClickhouse.Cleanup, h]
  · intro ok
    simp [CarbonClickhouse.Cleanup, h]
  · intro c' w' ok h'
    simp [CarbonClickhouse.Cleanup, h']

/-- Witness for C6 at a concrete instance tracking scratch directory
`/tmp/cch1` that exists in the world. -/
theorem C6_cleanup_idempotent_witness :
    (∀ ok,
      ((CarbonClickhouse.Cleanup { storeDir := "/tmp/cch1" }
        { dirs := ["/tmp/cch1"] } ok).1).storeDir = "") ∧
    "/tmp/cch1" ∉ (CarbonClickhouse.Cleanup { storeDir := "/tmp/cch1" }
        { dirs := ["/tmp/cch1"] } true).2.dirs ∧
    (∀ ok ok₂,
      ((CarbonClickhouse.Cleanup { storeDir := "/tmp/cch1" }
          { dirs := ["/tmp/cch1"] } ok).1).Cleanup
        (CarbonClickhouse.Cleanup { storeDir := "/tmp/cch1" }
          { dirs := ["/tmp/cch1"] } ok).2 ok₂
        = CarbonClickhouse.Cleanup { storeDir := "/tmp/cch1" }
            { dirs := ["/tmp/cch1"] } ok) ∧
    (∀ ok,
      (CarbonClickhouse.Cleanup { storeDir := "/tmp/cch1" }
          { dirs := ["/tmp/cch1"] } ok).1
        = (CarbonClickhouse.Cleanup { storeDir := "/tmp/cch1" }
            { dirs := ["/tmp/cch1"] } true).1) ∧
    (∀ c' w' ok, c'.storeDir = "" → CarbonClickhouse.Cleanup c' w' ok = (c', w')) :=
  C6_cleanup_idempotent { storeDir := "/tmp/cch1" } { dirs := ["/tmp/cch1"] }
    (by decide)

/-- C4: `Delete` on an instance with a tracked container clears the
container identifier exactly when the rm invocation succeeds and leaves it
unchanged when it fails; in both cases `Cleanup` runs (the tracked scratch
path ends up empty, and a tracked directory is gone from the world when
the removal succeeds), the rm subprocess is recorded, and `Delete` returns
the rm invocation's error and combined output. -/
theorem C4_delete_semantics (c : CarbonClickhouse) (w : World) (env : DeleteEnv)
    (h : c.container ≠ "") :
    (env.rm.err = none → ((c.Delete w env).c).container = "") ∧
    (env.rm.err ≠ none → ((c.Delete w env).c).container = c.container) ∧
    ((c.Delete w env).c).storeDir = "" ∧
    (c.storeDir ≠ "" → env.removeOk = true → c.storeDir ∉ (c.Delete w env).w.dirs) ∧
    (c.Delete w env).err = env.rm.err ∧
    (c.Delete w env).out = env.rm.out ∧
    (c.Delete w env).w.invocations = w.invocations ++ [(c.Docker, ["rm", c.container])] := by
  cases he : env.rm.err with
  | none =>
      cases hok : env.removeOk <;> by_cases hs : c.storeDir = "" <;>
        simp [CarbonClickhouse.Delete, CarbonClickhouse.Cleanup, removeAllDir,
          h, he, hok, hs, List.mem_filter]
  | some e =>
      cases hok : env.removeOk <;> by_cases hs : c.storeDir = "" <;>
        simp [CarbonClickhouse.Delete, CarbonClickhouse.Cleanup, removeAllDir,
          h, he, hok, hs, List.mem_filter]

/-- Witness for C4 at a concrete instance with a tracked container and
scratch directory, deleting with a successful rm. -/
theorem C4_delete_semantics_witness :
    ((({} : DeleteEnv).rm.err = none →
      ((CarbonClickhouse.Delete
        { Docker := "docker", container := CchContainerName, storeDir := "/tmp/cch1" }
        { dirs := ["/tmp/cch1"] } {}).c).container = "") ∧
    (({} : DeleteEnv).rm.err ≠ none →
      ((CarbonClickhouse.Delete
        { Docker := "docker", container := CchContainerName, storeDir := "/tmp/cch1" }
        { dirs := ["/tmp/cch1"] } {}).c).container = CchContainerName) ∧
    ((CarbonClickhouse.Delete
        { Docker := "docker", container := CchContainerName, storeDir := "/tmp/cch1" }
        { dirs := ["/tmp/cch1"] } {}).c).storeDir = "" ∧
    (("/tmp/cch1" : String) ≠ "" → ({} : DeleteEnv).removeOk = true →
      ("/tmp/cch1" : String) ∉ (CarbonClickhouse.Delete
        { Docker := "docker", container := CchContainerName, storeDir := "/tmp/cch1" }
        { dirs := ["/tmp/cch1"] } {}).w.dirs) ∧
    (CarbonClickhouse.Delete
        { Docker := "docker", container := CchContainerName, storeDir := "/tmp/cch1" }
        { dirs := ["/tmp/cch1"] } {}).err = ({} : DeleteEnv).rm.err ∧
    (CarbonClickhouse.Delete
        { Docker := "docker", container := CchContainerName, storeDir := "/tmp/cch1" }
        { dirs := ["/tmp/cch1"] } {}).out = ({} : DeleteEnv).rm.out ∧
    (CarbonClickhouse.Delete
        { Docker := "docker", container := CchContainerName, storeDir := "/tmp/cch1" }
        { dirs := ["/tmp/cch1"] } {}).w.invocations
      = ({ dirs := ["/tmp/cch1"] } : World).invocations
        ++ [("docker", ["rm", CchContainerName])]) :=
  C4_delete_semantics
    { Docker := "docker", container := CchContainerName, storeDir := "/tmp/cch1" }
    { dirs := ["/tmp/cch1"] } {} (by decide)

/-- C5: `Stop` on an instance with a tracked container, when the stop
invocation succeeds and deletion is requested, chains into `Delete` and
returns the rm invocation's error and output in place of the stop's own
(both subprocesses are recorded, and the container is cleared when the rm
succeeds); when the stop invocation fails, `Stop` returns the stop's error
and combined output, leaves the state untouched, and performs no rm
invocation even when deletion was requested. -/
theorem C5_stop_semantics (c : CarbonClickhouse) (w : World) (env : StopEnv)
    (delete : Bool) (h : c.container ≠ "") :
    (env.stop.err = none → delete = true →
      (c.Stop w env delete).err = env.del.rm.err ∧
      (c.Stop w env delete).out = env.del.rm.out ∧
      (c.Stop w env delete).w.invocations
        = w.invocations
          ++ [(c.Docker, ["stop", c.container]), (c.Docker, ["rm", c.container])] ∧
      (env.del.rm.err = none → ((c.Stop w env delete).c).container = "")) ∧
    (env.stop.err ≠ none →
      (c.Stop w env delete).err = env.stop.err ∧
      (c.Stop w env delete).out = env.stop.out ∧
      (c.Stop w env delete).c = c ∧
      (c.Stop w env delete).w.invocations
        = w.invocations ++ [(c.Docker, ["stop", c.container])]) := by
  constructor
  · intro hse hd
    cases hre : env.del.rm.err with
    | none =>
        cases hok : env.del.removeOk <;> by_cases hs : c.storeDir = "" <;>
          simp [CarbonClickhouse.Stop, CarbonClickhouse.Delete,
            CarbonClickhouse.Cleanup, removeAllDir, h, hse, hd, hre, hok, hs]
    | some e =>
        cases hok : env.del.removeOk <;> by_cases hs : c.storeDir = "" <;>
          simp [CarbonClickhouse.Stop, CarbonClickhouse.Delete,
            CarbonClickhouse.Cleanup, removeAllDir, h, hse, hd, hre, hok, hs]
  · intro hse
    simp [CarbonClickhouse.Stop, h, hse]

/-- Witness for C5 at a concrete instance with a tracked container,
stopping with `alsoDelete = true`, where both stop and rm succeed. -/
theorem C5_stop_semantics_witness :
    ((({} : StopEnv).stop.err = none → true = true →
      (CarbonClickhouse.Stop
        { Docker := "docker", container := CchContainerName } {} {} true).err
          = ({} : StopEnv).del.rm.err ∧
      (CarbonClickhouse.Stop
        { Docker := "docker", container := CchContainerName } {} {} true).out
          = ({} : StopEnv).del.rm.out ∧
      (CarbonClickhouse.Stop
        { Docker := "docker", container := CchContainerName } {} {} true).w.invocations
        = ({} : World).invocations
          ++ [("docker", ["stop", CchContainerName]), ("docker", ["rm", CchContainerName])] ∧
      (({} : StopEnv).del.rm.err = none →
        ((CarbonClickhouse.Stop
          { Docker := "docker", container := CchContainerName } {} {} true).c).container = "")) ∧
    (({} : StopEnv).stop.err ≠ none →
      (CarbonClickhouse.Stop
        { Docker := "docker", container := CchContainerName } {} {} true).err
          = ({} : StopEnv).stop.err ∧
      (CarbonClickhouse.Stop
        { Docker := "docker", container := CchContainerName } {} {} true).out
          = ({} : StopEnv).stop.out ∧
      (CarbonClickhouse.Stop
        { Docker := "docker", container := CchContainerName } {} {} true).c
          = { Docker := "docker", container := CchContainerName } ∧
      (CarbonClickhouse.Stop
        { Docker := "docker", container := CchContainerName } {} {} true).w.invocations
        = ({} : World).invocations ++ [("docker", ["stop", CchContainerName])])) :=
  C5_stop_semantics { Docker := "docker", container := CchContainerName } {} {} true
    (by decide)

/-- Witness for C7 at a concrete never-started instance. -/
theorem C7_stop_delete_noop_witness :
    (∀ env delete,
      CarbonClickhouse.Stop { Version := "1.2.3" } {} env delete
        = ⟨{ Version := "1.2.3" }, {}, none, ""⟩) ∧
    (∀ env,
      CarbonClickhouse.Delete { Version := "1.2.3" } {} env
        = ⟨{ Version := "1.2.3" }, {}, none, ""⟩) :=
  C7_stop_delete_noop { Version := "1.2.3" } {} rfl

/-- C9: `Start` with an empty version returns the validation error
immediately with empty output and an otherwise untouched state and world
(no port reserved, no directory created, no subprocess run); with a
non-empty version, an unset `Docker` or `DockerImage` is filled in with
its well-known default purely, whatever the rest of the call does. -/
theorem C9_validation_and_defaulting (c : CarbonClickhouse) (w : World)
    (env : StartEnv) (td cu cc : String) :
    (c.Version = "" →
      c.Start w env td cu cc = ⟨c, w, some "version not set", ""⟩) ∧
    (c.Version ≠ "" →
      ((c.Start w env td cu cc).c).Docker
        = (if c.Docker = "" then "docker" else c.Docker) ∧
      ((c.Start w env td cu cc).c).DockerImage
        = (if c.DockerImage = "" then "lomik/carbon-clickhouse" else c.DockerImage)) := by
  constructor
  · intro hv
    simp [CarbonClickhouse.Start, hv]
  · intro hv
    rcases env with ⟨⟨v1, e1⟩, ⟨dv, de⟩, ⟨v2, e2⟩, pe, oe, re, run, rok⟩
    cases e1 <;> cases de <;> cases e2 <;> cases pe <;> cases oe <;> cases re <;>
      by_cases hD : c.Docker = "" <;> by_cases hI : c.DockerImage = "" <;>
        simp [CarbonClickhouse.Start, hv, hD, hI]

/-- Witness for C9: empty-version rejection at one concrete instance and
default filling at another. -/
theorem C9_validation_and_defaulting_witness :
    (CarbonClickhouse.Start {} {} {} "/tests" "ch:8123" "ch"
      = ⟨{}, {}, some "version not set", ""⟩) ∧
    ((CarbonClickhouse.Start { Version := "1.2.3" } {} {} "/tests" "ch:8123" "ch").c).Docker
      = "docker" ∧
    ((CarbonClickhouse.Start { Version := "1.2.3" } {} {} "/tests" "ch:8123" "ch").c).DockerImage
      = "lomik/carbon-clickhouse" := by
  refine ⟨(C9_validation_and_defaulting {} {} {} "/tests" "ch:8123" "ch").1 rfl, ?_, ?_⟩
  · have h := (C9_validation_and_defaulting { Version := "1.2.3" } {} {}
      "/tests" "ch:8123" "ch").2 (by decide)
    simpa using h.1
  · have h := (C9_validation_and_defaulting { Version := "1.2.3" } {} {}
      "/tests" "ch:8123" "ch").2 (by decide)
    simpa using h.2

/-- C2: when `Start` passes validation and both port allocations and the
scratch-directory creation succeed, but locating/parsing the template,
creating the config file, or rendering fails, then `Start` returns a
non-nil error with empty output, the scratch directory created in that
attempt is removed from the world and untracked, and no subprocess is
invoked. -/
theorem C2_config_failure_cleanup (c : CarbonClickhouse) (w : World)
    (env : StartEnv) (td cu cc : String)
    (hv : c.Version ≠ "")
    (h1 : env.port1.2 = none) (h2 : env.tempDir.2 = none) (h3 : env.port2.2 = none)
    (hd : env.tempDir.1 ≠ "") (hok : env.removeOk = true)
    (hfail : env.parseErr ≠ none ∨ env.openErr ≠ none ∨ env.renderErr ≠ none) :
    (c.Start w env td cu cc).err ≠ none ∧
    (c.Start w env td cu cc).out = "" ∧
    ((c.Start w env td cu cc).c).storeDir = "" ∧
    env.tempDir.1 ∉ (c.Start w env td cu cc).w.dirs ∧
    (c.Start w env td cu cc).w.invocations = w.invocations := by
  rcases hfail with hp | ho | hr
  · obtain ⟨e, hpe⟩ := Option.ne_none_iff_exists'.mp hp
    by_cases hD : c.Docker = "" <;> by_cases hI : c.DockerImage = "" <;>
      simp [CarbonClickhouse.Start, CarbonClickhouse.Cleanup, removeAllDir,
        hv, h1, h2, h3, hpe, hd, hok, hD, hI, List.mem_filter]
  · cases hpe : env.parseErr with
    | some e =>
        by_cases hD : c.Docker = "" <;> by_cases hI : c.DockerImage = "" <;>
          simp [CarbonClickhouse.Start, CarbonClickhouse.Cleanup, removeAllDir,
            hv, h1, h2, h3, hpe, hd, hok, hD, hI, List.mem_filter]
    | none =>
        obtain ⟨e, hoe⟩ := Option.ne_none_iff_exists'.mp ho
        by_cases hD : c.Docker = "" <;> by_cases hI : c.DockerImage = "" <;>
          simp [CarbonClickhouse.Start, CarbonClickhouse.Cleanup, removeAllDir,
            hv, h1, h2, h3, hpe, hoe, hd, hok, hD, hI, List.mem_filter]
  · cases hpe : env.parseErr with
    | some e =>
        by_cases hD : c.Docker = "" <;> by_cases hI : c.DockerImage = "" <;>
          simp [CarbonClickhouse.Start, CarbonClickhouse.Cleanup, removeAllDir,
            hv, h1, h2, h3, hpe, hd, hok, hD, hI, List.mem_filter]
    | none =>
        cases hoe : env.openErr with
        | some e =>
            by_cases hD : c.Docker = "" <;> by_cases hI : c.DockerImage = "" <;>
              simp [CarbonClickhouse.Start, CarbonClickhouse.Cleanup, removeAllDir,
                hv, h1, h2, h3, hpe, hoe, hd, hok, hD, hI, List.mem_filter]
        | none =>
            obtain ⟨e, hre⟩ := Option.ne_none_iff_exists'.mp hr
            by_cases hD : c.Docker = "" <;> by_cases hI : c.DockerImage = "" <;>
              simp [CarbonClickhouse.Start, CarbonClickhouse.Cleanup, removeAllDir,
                hv, h1, h2, h3, hpe, hoe, hre, hd, hok, hD, hI, List.mem_filter]

/-- Witness for C2: a concrete `Start` whose template rendering fails. -/
theorem C2_config_failure_cleanup_witness :
    (CarbonClickhouse.Start { Version := "1.2.3" } {}
      { port1 := ("127.0.0.1:10001", none), tempDir := ("/tmp/cch2", none),
        port2 := ("127.0.0.1:10002", none),
        renderErr := some "template: undefined parameter" }
      "/tests" "ch:8123" "ch").err ≠ none ∧
    (CarbonClickhouse.Start { Version := "1.2.3" } {}
      { port1 := ("127.0.0.1:10001", none), tempDir := ("/tmp/cch2", none),
        port2 := ("127.0.0.1:10002", none),
        renderErr := some "template: undefined parameter" }
      "/tests" "ch:8123" "ch").out = "" ∧
    ((CarbonClickhouse.Start { Version := "1.2.3" } {}
      { port1 := ("127.0.0.1:10001", none), tempDir := ("/tmp/cch2", none),
        port2 := ("127.0.0.1:10002", none),
        renderErr := some "template: undefined parameter" }
      "/tests" "ch:8123" "ch").c).storeDir = "" ∧
    ("/tmp/cch2" : String) ∉ (CarbonClickhouse.Start { Version := "1.2.3" } {}
      { port1 := ("127.0.0.1:10001", none), tempDir := ("/tmp/cch2", none),
        port2 := ("127.0.0.1:10002", none),
        renderErr := some "template: undefined parameter" }
      "/tests" "ch:8123" "ch").w.dirs ∧
    (CarbonClickhouse.Start { Version := "1.2.3" } {}
      { port1 := ("127.0.0.1:10001", none), tempDir := ("/tmp/cch2", none),
        port2 := ("127.0.0.1:10002", none),
        renderErr := some "template: undefined parameter" }
      "/tests" "ch:8123" "ch").w.invocations = ({} : World).invocations :=
  C2_config_failure_cleanup { Version := "1.2.3" } {}
    { port1 := ("127.0.0.1:10001", none), tempDir := ("/tmp/cch2", none),
      port2 := ("127.0.0.1:10002", none),
      renderErr := some "template: undefined parameter" }
    "/tests" "ch:8123" "ch"
    (by decide) rfl rfl rfl (by decide) rfl (by simp)

/-- C3: when `Start` reaches the container-launch step (every earlier step
succeeded) and the runtime invocation fails, `Start` returns that non-nil
error together with the subprocess's (non-empty) combined output verbatim,
exactly one subprocess was invoked, and the scratch directory stays
tracked with both the directory and its rendered config file still
existing — no cleanup runs on this path. -/
theorem C3_launch_failure_no_cleanup (c : CarbonClickhouse) (w : World)
    (env : StartEnv) (td cu cc : String)
    (hv : c.Version ≠ "")
    (h1 : env.port1.2 = none) (h2 : env.tempDir.2 = none) (h3 : env.port2.2 = none)
    (hp : env.parseErr = none) (ho : env.openErr = none) (hr : env.renderErr = none)
    (he : env.run.err ≠ none) (hout : env.run.out ≠ "") :
    (c.Start w env td cu cc).err = env.run.err ∧
    (c.Start w env td cu cc).err ≠ none ∧
    (c.Start w env td cu cc).out = env.run.out ∧
    (c.Start w env td cu cc).out ≠ "" ∧
    ((c.Start w env td cu cc).c).storeDir = env.tempDir.1 ∧
    env.tempDir.1 ∈ (c.Start w env td cu cc).w.dirs ∧
    joinPath env.tempDir.1 "carbon-clickhouse.conf" ∈ (c.Start w env td cu cc).w.files ∧
    (c.Start w env td cu cc).w.invocations.length = w.invocations.length + 1 := by
  by_cases hD : c.Docker = "" <;> by_cases hI : c.DockerImage = "" <;>
    simp [CarbonClickhouse.Start, hv, h1, h2, h3, hp, ho, hr, he, hout, hD, hI]

/-- Witness for C3: a concrete `Start` whose `docker run` exits non-zero. -/
theorem C3_launch_failure_no_cleanup_witness :
    (CarbonClickhouse.Start { Version := "1.2.3" } {}
      { port1 := ("127.0.0.1:10001", none), tempDir := ("/tmp/cch3", none),
        port2 := ("127.0.0.1:10002", none),
        run := { out := "docker: conflict", err := some "exit status 125" } }
      "/tests" "ch:8123" "ch").err = some "exit status 125" ∧
    (CarbonClickhouse.Start { Version := "1.2.3" } {}
      { port1 := ("127.0.0.1:10001", none), tempDir := ("/tmp/cch3", none),
        port2 := ("127.0.0.1:10002", none),
        run := { out := "docker: conflict", err := some "exit status 125" } }
      "/tests" "ch:8123" "ch").out = "docker: conflict" ∧
    ((CarbonClickhouse.Start { Version := "1.2.3" } {}
      { port1 := ("127.0.0.1:10001", none), tempDir := ("/tmp/cch3", none),
        port2 := ("127.0.0.1:10002", none),
        run := { out := "docker: conflict", err := some "exit status 125" } }
      "/tests" "ch:8123" "ch").c).storeDir = "/tmp/cch3" ∧
    ("/tmp/cch3" : String) ∈ (CarbonClickhouse.Start { Version := "1.2.3" } {}
      { port1 := ("127.0.0.1:10001", none), tempDir := ("/tmp/cch3", none),
        port2 := ("127.0.0.1:10002", none),
        run := { out := "docker: conflict", err := some "exit status 125" } }
      "/tests" "ch:8123" "ch").w.dirs ∧
    joinPath "/tmp/cch3" "carbon-clickhouse.conf"
      ∈ (CarbonClickhouse.Start { Version := "1.2.3" } {}
      { port1 := ("127.0.0.1:10001", none), tempDir := ("/tmp/cch3", none),
        port2 := ("127.0.0.1:10002", none),
        run := { out := "docker: conflict", err := some "exit status 125" } }
      "/tests" "ch:8123" "ch").w.files := by
  have h := C3_launch_failure_no_cleanup { Version := "1.2.3" } {}
    { port1 := ("127.0.0.1:10001", none), tempDir := ("/tmp/cch3", none),
      port2 := ("127.0.0.1:10002", none),
      run := { out := "docker: conflict", err := some "exit status 125" } }
    "/tests" "ch:8123" "ch"
    (by decide) rfl rfl rfl rfl rfl rfl (by simp) (by decide)
  exact ⟨h.1, h.2.2.1, h.2.2.2.2.1, h.2.2.2.2.2.1, h.2.2.2.2.2.2.1⟩

/-- C8: on a fully successful `Start`, the address obtained by the second
allocation (overwriting the first) is the `CCH_ADDR` parameter passed to
template rendering, appears as the host side of the `-p` port mapping in
the recorded `docker run` argument list, and is what `Address` returns
afterward (non-empty, since the allocator returned a non-empty host:port),
while `Container` returns the fixed well-known container name. -/
theorem C8_address_coherence (c : CarbonClickhouse) (w : World)
    (env : StartEnv) (td cu cc : String)
    (hv : c.Version ≠ "")
    (h1 : env.port1.2 = none) (h2 : env.tempDir.2 = none) (h3 : env.port2.2 = none)
    (hp : env.parseErr = none) (ho : env.openErr = none) (hr : env.renderErr = none)
    (he : env.run.err = none) (ha : env.port2.1 ≠ "") :
    (c.Start w env td cu cc).err = none ∧
    ((c.Start w env td cu cc).c).Address = env.port2.1 ∧
    ((c.Start w env td cu cc).c).Address ≠ "" ∧
    ((c.Start w env td cu cc).c).Container = CchContainerName ∧
    (c.Start w env td cu cc).w.renderCalls = w.renderCalls ++ [(cu, env.port2.1)] ∧
    (c.Start w env td cu cc).w.invocations
      = w.invocations
        ++ [(((c.Start w env td cu cc).c).Docker,
             cchStartArgs ((c.Start w env td cu cc).c) cc)] ∧
    (env.port2.1 ++ ":2003") ∈ cchStartArgs ((c.Start w env td cu cc).c) cc := by
  by_cases hD : c.Docker = "" <;> by_cases hI : c.DockerImage = "" <;>
    by_cases hT : c.TZ = "" <;>
      simp [CarbonClickhouse.Start, CarbonClickhouse.Address,
        CarbonClickhouse.Container, cchStartArgs,
        hv, h1, h2, h3, hp, ho, hr, he, ha, hD, hI, hT]

/-- Witness for C8: a concrete fully successful `Start` in which the two
port allocations return different addresses and the second one is used. -/
theorem C8_address_coherence_witness :
    (CarbonClickhouse.Start { Version := "1.2.3" } {}
      { port1 := ("127.0.0.1:10001", none), tempDir := ("/tmp/cch8", none),
        port2 := ("127.0.0.1:10002", none) }
      "/tests" "ch:8123" "ch").err = none ∧
    ((CarbonClickhouse.Start { Version := "1.2.3" } {}
      { port1 := ("127.0.0.1:10001", none), tempDir := ("/tmp/cch8", none),
        port2 := ("127.0.0.1:10002", none) }
      "/tests" "ch:8123" "ch").c).Address = "127.0.0.1:10002" ∧
    ((CarbonClickhouse.Start { Version := "1.2.3" } {}
      { port1 := ("127.0.0.1:10001", none), tempDir := ("/tmp/cch8", none),
        port2 := ("127.0.0.1:10002", none) }
      "/tests" "ch:8123" "ch").c).Container = CchContainerName ∧
    (CarbonClickhouse.Start { Version := "1.2.3" } {}
      { port1 := ("127.0.0.1:10001", none), tempDir := ("/tmp/cch8", none),
        port2 := ("127.0.0.1:10002", none) }
      "/tests" "ch:8123" "ch").w.renderCalls
        = ({} : World).renderCalls ++ [("ch:8123", "127.0.0.1:10002")] ∧
    ("127.0.0.1:10002" ++ ":2003")
      ∈ cchStartArgs ((CarbonClickhouse.Start { Version := "1.2.3" } {}
          { port1 := ("127.0.0.1:10001", none), tempDir := ("/tmp/cch8", none),
            port2 := ("127.0.0.1:10002", none) }
          "/tests" "ch:8123" "ch").c) "ch" := by
  have h := C8_address_coherence { Version := "1.2.3" } {}
    { port1 := ("127.0.0.1:10001", none), tempDir := ("/tmp/cch8", none),
      port2 := ("127.0.0.1:10002", none) }
    "/tests" "ch:8123" "ch"
    (by decide) rfl rfl rfl rfl rfl rfl rfl (by decide)
  exact ⟨h.1, h.2.1, h.2.2.2.1, h.2.2.2.2.1, h.2.2.2.2.2.2⟩

/-- C1 counterexample: a `Start` that fails before container launch (the
scratch-directory creation fails, so no subprocess is ever invoked) leaves
`Container()` equal to the fixed name, not empty — refuting the claim that
the tracked container identifier is empty whenever no container has ever
been successfully created. -/
theorem C1_counterexample_failed_start_nonempty_container :
    (CarbonClickhouse.Start { Version := "1.2.3" } {}
      { port1 := ("127.0.0.1:10001", none), tempDir := ("", some "mkdir failed") }
      "/tests" "ch:8123" "ch").err ≠ none ∧
    (CarbonClickhouse.Start { Version := "1.2.3" } {}
      { port1 := ("127.0.0.1:10001", none), tempDir := ("", some "mkdir failed") }
      "/tests" "ch:8123" "ch").w.invocations = [] ∧
    ((CarbonClickhouse.Start { Version := "1.2.3" } {}
      { port1 := ("127.0.0.1:10001", none), tempDir := ("", some "mkdir failed") }
      "/tests" "ch:8123" "ch").c).Container = CchContainerName ∧
    CchContainerName ≠ "" := by
  refine ⟨?_, rfl, rfl, ?_⟩ <;> decide

/-- C1 amended: a `Start` that fails validation or the first port
allocation leaves the tracked container identifier unchanged, so it is
still empty before the first `Start` that passes those two steps; such a
qualifying `Start` sets it to the fixed name whatever happens afterwards,
including any failure before or at container launch; and it is cleared
exactly by a `Delete` whose rm invocation succeeds — a `Delete` whose rm
fails, a `Stop` that does not chain into a successful delete, and
`Cleanup` all preserve it, and `Stop` never turns an empty identifier
non-empty. -/
theorem C1_container_tracking_amended (c : CarbonClickhouse) (w : World)
    (env : StartEnv) (td cu cc : String) :
    (c.Version = "" → ((c.Start w env td cu cc).c).Container = c.Container) ∧
    (env.port1.2 ≠ none → ((c.Start w env td cu cc).c).Container = c.Container) ∧
    (c.Version ≠ "" → env.port1.2 = none →
      ((c.Start w env td cu cc).c).Container = CchContainerName) ∧
    (∀ (c' : CarbonClickhouse) (w' : World) (env' : DeleteEnv),
      (env'.rm.err = none → ((c'.Delete w' env').c).Container = "") ∧
      (env'.rm.err ≠ none → ((c'.Delete w' env').c).Container = c'.Container)) ∧
    (∀ (c' : CarbonClickhouse) (w' : World) (env' : StopEnv) (dl : Bool),
      ((env'.stop.err ≠ none ∨ dl = false ∨ env'.del.rm.err ≠ none) →
        ((c'.Stop w' env' dl).c).Container = c'.Container) ∧
      (c'.Container = "" → ((c'.Stop w' env' dl).c).Container = "")) ∧
    (∀ (c' : CarbonClickhouse) (w' : World) (ok : Bool),
      ((c'.Cleanup w' ok).1).Container = c'.Container) := by
  refine ⟨?_, ?_, ?_, ?_, ?_, ?_⟩
  · intro hv
    simp [CarbonClickhouse.Start, CarbonClickhouse.Container, hv]
  · intro h1
    obtain ⟨e, he⟩ := Option.ne_none_iff_exists'.mp h1
    by_cases hv : c.Version = "" <;>
      by_cases hD : c.Docker = "" <;> by_cases hI : c.DockerImage = "" <;>
        simp [CarbonClickhouse.Start, CarbonClickhouse.Container, hv, he, hD, hI]
  · intro hv h1
    rcases hde : env.tempDir.2 with _ | de <;>
    rcases he2 : env.port2.2 with _ | e2 <;>
    rcases hpe : env.parseErr with _ | pe <;>
    rcases hoe : env.openErr with _ | oe <;>
    rcases hre : env.renderErr with _ | re <;>
      by_cases hD : c.Docker = "" <;> by_cases hI : c.DockerImage = "" <;>
        simp [CarbonClickhouse.Start, CarbonClickhouse.Container,
          hv, h1, hde, he2, hpe, hoe, hre, hD, hI]
  · intro c' w' env'
    constructor
    · intro hrm
      by_cases hc : c'.container = "" <;>
        simp [CarbonClickhouse.Delete, CarbonClickhouse.Container, hc, hrm]
    · intro hrm
      obtain ⟨e, he⟩ := Option.ne_none_iff_exists'.mp hrm
      by_cases hc : c'.container = "" <;>
        simp [CarbonClickhouse.Delete, CarbonClickhouse.Container, hc, he]
  · intro c' w' env' dl
    constructor
    · intro hdisj
      by_cases hc : c'.container = ""
      · simp [CarbonClickhouse.Stop, CarbonClickhouse.Container, hc]
      · rcases hdisj with hse | hdl | hre
        · obtain ⟨e, he⟩ := Option.ne_none_iff_exists'.mp hse
          simp [CarbonClickhouse.Stop, CarbonClickhouse.Container, hc, he]
        · simp [CarbonClickhouse.Stop, CarbonClickhouse.Container, hc, hdl]
        · obtain ⟨e, he⟩ := Option.ne_none_iff_exists'.mp hre
          by_cases hbr : env'.stop.err = none ∧ dl = true <;>
            simp [CarbonClickhouse.Stop, CarbonClickhouse.Delete,
              CarbonClickhouse.Container, hc, hbr, he]
    · intro hc
      simp only [CarbonClickhouse.Container] at hc
      simp [CarbonClickhouse.Stop, CarbonClickhouse.Container, hc]
  · intro c' w' ok
    simp [CarbonClickhouse.Container]

/-- Witness for the amended C1 at concrete inputs: a validation-failure
`Start` and a port1-failure `Start` both leave the identifier empty; the
counterexample's tempdir-failure `Start` tracks the fixed name; a
successful-rm `Delete` clears it while a failed-rm `Delete`, a failed
`Stop`, and a `Cleanup` preserve it; and `Stop` keeps an empty identifier
empty. -/
theorem C1_container_tracking_amended_witness :
    ((CarbonClickhouse.Start {} {} {} "/tests" "ch:8123" "ch").c).Container
      = ({} : CarbonClickhouse).Container ∧
    ((CarbonClickhouse.Start { Version := "1.2.3" } {}
      { port1 := ("", some "no free port") } "/tests" "ch:8123" "ch").c).Container
      = ({ Version := "1.2.3" } : CarbonClickhouse).Container ∧
    ((CarbonClickhouse.Start { Version := "1.2.3" } {}
      { port1 := ("127.0.0.1:10001", none), tempDir := ("", some "mkdir failed") }
      "/tests" "ch:8123" "ch").c).Container = CchContainerName ∧
    ((CarbonClickhouse.Delete
      { Docker := "docker", container := CchContainerName } {} {}).c).Container = "" ∧
    ((CarbonClickhouse.Delete
      { Docker := "docker", container := CchContainerName } {}
      { rm := { out := "rm failed", err := some "exit status 1" } }).c).Container
      = ({ Docker := "docker", container := CchContainerName } : CarbonClickhouse).Container ∧
    ((CarbonClickhouse.Stop
      { Docker := "docker", container := CchContainerName } {}
      { stop := { err := some "exit status 1" } } true).c).Container
      = ({ Docker := "docker", container := CchContainerName } : CarbonClickhouse).Container ∧
    ((CarbonClickhouse.Stop {} {} {} true).c).Container = "" ∧
    ((CarbonClickhouse.Cleanup
      { container := CchContainerName, storeDir := "/tmp/x" } {} true).1).Container
      = ({ container := CchContainerName, storeDir := "/tmp/x" } : CarbonClickhouse).Container := by
  refine ⟨?_, ?_, ?_, ?_, ?_, ?_, ?_, ?_⟩
  · exact (C1_container_tracking_amended {} {} {} "/tests" "ch:8123" "ch").1 rfl
  · exact (C1_container_tracking_amended { Version := "1.2.3" } {}
      { port1 := ("", some "no free port") } "/tests" "ch:8123" "ch").2.1 (by simp)
  · exact (C1_container_tracking_amended { Version := "1.2.3" } {}
      { port1 := ("127.0.0.1:10001", none), tempDir := ("", some "mkdir failed") }
      "/tests" "ch:8123" "ch").2.2.1 (by decide) rfl
  · exact ((C1_container_tracking_amended {} {} {} "/tests" "ch:8123" "ch").2.2.2.1
      { Docker := "docker", container := CchContainerName } {} {}).1 rfl
  · exact ((C1_container_tracking_amended {} {} {} "/tests" "ch:8123" "ch").2.2.2.1
      { Docker := "docker", container := CchContainerName } {}
      { rm := { out := "rm failed", err := some "exit status 1" } }).2 (by simp)
  · exact ((C1_container_tracking_amended {} {} {} "/tests" "ch:8123" "ch").2.2.2.2.1
      { Docker := "docker", container := CchContainerName } {}
      { stop := { err := some "exit status 1" } } true).1 (Or.inl (by simp))
  · exact ((C1_container_tracking_amended {} {} {} "/tests" "ch:8123" "ch").2.2.2.2.1
      {} {} {} true).2 rfl
  · exact (C1_container_tracking_amended {} {} {} "/tests" "ch:8123" "ch").2.2.2.2.2
      { container := CchContainerName, storeDir := "/tmp/x" } {} true

/-- One later lifecycle operation other than `Start`: a `Cleanup`, a
`Stop`, or a `Delete`, each with its oracle inputs. -/
inductive TeardownOp where
  | cleanup (removeOk : Bool)
  | stop (env : StopEnv) (delete : Bool)
  | del (env : DeleteEnv)
deriving Repr, DecidableEq

/-- Apply one teardown operation, keeping only the state and the world. -/
def applyOp (c : CarbonClickhouse) (w : World) : TeardownOp → CarbonClickhouse × World
  | .cleanup ok => c.Cleanup w ok
  | .stop env d => ((c.Stop w env d).c, (c.Stop w env d).w)
  | .del env => ((c.Delete w env).c, (c.Delete w env).w)

/-- Apply a sequence of teardown operations in order. -/
def applyOps (c : CarbonClickhouse) (w : World) : List TeardownOp → CarbonClickhouse × World
  | [] => (c, w)
  | op :: ops => (applyOps (applyOp c w op).1 (applyOp c w op).2 ops)

/-- A directory that is not the currently tracked scratch path survives a
`Cleanup` and is still not tracked afterwards. -/
theorem orphan_survives_cleanup (d : String) (hd : d ≠ "")
    (c : CarbonClickhouse) (w : World) (ok : Bool)
    (hs : c.storeDir ≠ d) (hw : d ∈ w.dirs) :
    ((c.Cleanup w ok).1).storeDir ≠ d ∧ d ∈ ((c.Cleanup w ok).2).dirs := by
  constructor
  · rw [cleanup_fst_storeDir]
    exact fun h => hd h.symm
  · by_cases he : c.storeDir = ""
    · simpa [CarbonClickhouse.Cleanup, he] using hw
    · cases ok with
      | false => simpa [CarbonClickhouse.Cleanup, removeAllDir, he] using hw
      | true =>
          simp [CarbonClickhouse.Cleanup, removeAllDir, he, List.mem_filter]
          exact ⟨hw, fun h => hs h.symm⟩

/-- A directory that is not the currently tracked scratch path survives a
`Delete` and is still not tracked afterwards. -/
theorem orphan_survives_delete (d : String) (hd : d ≠ "")
    (c : CarbonClickhouse) (w : World) (env : DeleteEnv)
    (hs : c.storeDir ≠ d) (hw : d ∈ w.dirs) :
    ((c.Delete w env).c).storeDir ≠ d ∧ d ∈ ((c.Delete w env).w).dirs := by
  by_cases hc : c.container = ""
  · simp [CarbonClickhouse.Delete, hc]
    exact ⟨hs, hw⟩
  · have h := orphan_survives_cleanup d hd
      (if env.rm.err = none then { c with container := "" } else c)
      { w with invocations := w.invocations ++ [(c.Docker, ["rm", c.container])] }
      env.removeOk
      (by cases he : env.rm.err <;> simp [he, hs]) (by simpa using hw)
    cases he : env.rm.err <;>
      simpa [CarbonClickhouse.Delete, hc, he] using (by simpa [he] using h)

/-- A directory that is not the currently tracked scratch path survives a
`Stop` (with or without chained deletion) and is still not tracked. -/
theorem orphan_survives_stop (d : String) (hd : d ≠ "")
    (c : CarbonClickhouse) (w : World) (env : StopEnv) (delete : Bool)
    (hs : c.storeDir ≠ d) (hw : d ∈ w.dirs) :
    ((c.Stop w env delete).c).storeDir ≠ d ∧ d ∈ ((c.Stop w env delete).w).dirs := by
  by_cases hc : c.container = ""
  · simp [CarbonClickhouse.Stop, hc]
    exact ⟨hs, hw⟩
  · by_cases hbr : env.stop.err = none ∧ delete = true
    · have h := orphan_survives_delete d hd c
        { w with invocations := w.invocations ++ [(c.Docker, ["stop", c.container])] }
        env.del hs (by simpa using hw)
      simpa [CarbonClickhouse.Stop, hc, hbr] using h
    · simp [CarbonClickhouse.Stop, hc, hbr]
      exact ⟨hs, hw⟩

/-- A directory that is not the currently tracked scratch path survives
any sequence of later `Cleanup`/`Stop`/`Delete` operations. -/
theorem orphan_survives_teardown (d : String) (hd : d ≠ "") :
    ∀ (ops : List TeardownOp) (c : CarbonClickhouse) (w : World),
      c.storeDir ≠ d → d ∈ w.dirs →
      ((applyOps c w ops).1).storeDir ≠ d ∧ d ∈ ((applyOps c w ops).2).dirs := by
  intro ops
  induction ops with
  | nil => intro c w hs hw; exact ⟨hs, hw⟩
  | cons op ops ih =>
      intro c w hs hw
      have hstep : ((applyOp c w op).1).storeDir ≠ d ∧ d ∈ ((applyOp c w op).2).dirs := by
        cases op with
        | cleanup ok => exact orphan_survives_cleanup d hd c w ok hs hw
        | stop env delete => exact orphan_survives_stop d hd c w env delete hs hw
        | del env => exact orphan_survives_delete d hd c w env hs hw
      exact ih _ _ hstep.1 hstep.2

/-- C10: a `Start` issued while a scratch directory from a previous
`Start` is still tracked overwrites the tracked scratch path and address
with the freshly allocated ones without removing the old directory, which
stays in the world and survives every later sequence of `Cleanup`, `Stop`,
and `Delete` operations on this instance — it is orphaned for good. -/
theorem C10_orphaned_scratch_directory (c : CarbonClickhouse) (w : World)
    (env : StartEnv) (td cu cc d : String)
    (hd : d ≠ "") (hsd : c.storeDir = d) (hw : d ∈ w.dirs)
    (hv : c.Version ≠ "")
    (h1 : env.port1.2 = none) (h2 : env.tempDir.2 = none) (h3 : env.port2.2 = none)
    (hp : env.parseErr = none) (ho : env.openErr = none) (hr : env.renderErr = none)
    (hfresh : env.tempDir.1 ≠ d) :
    ((c.Start w env td cu cc).c).storeDir = env.tempDir.1 ∧
    ((c.Start w env td cu cc).c).address = env.port2.1 ∧
    d ∈ (c.Start w env td cu cc).w.dirs ∧
    ∀ ops : List TeardownOp,
      d ∈ ((applyOps ((c.Start w env td cu cc).c)
            ((c.Start w env td cu cc).w) ops).2).dirs := by
  have hstore : ((c.Start w env td cu cc).c).storeDir = env.tempDir.1 := by
    by_cases hD : c.Docker = "" <;> by_cases hI : c.DockerImage = "" <;>
      simp [CarbonClickhouse.Start, hv, h1, h2, h3, hp, ho, hr, hD, hI]
  have haddr : ((c.Start w env td cu cc).c).address = env.port2.1 := by
    by_cases hD : c.Docker = "" <;> by_cases hI : c.DockerImage = "" <;>
      simp [CarbonClickhouse.Start, hv, h1, h2, h3, hp, ho, hr, hD, hI]
  have hmem : d ∈ (c.Start w env td cu cc).w.dirs := by
    by_cases hD : c.Docker = "" <;> by_cases hI : c.DockerImage = "" <;>
      simp [CarbonClickhouse.Start, hv, h1, h2, h3, hp, ho, hr, hD, hI, hw]
  refine ⟨hstore, haddr, hmem, fun ops => ?_⟩
  exact (orphan_survives_teardown d hd ops _ _
    (by rw [hstore]; exact hfresh) hmem).2

/-- Witness for C10: a concrete second `Start` over a still-tracked
`/tmp/old` scratch directory, followed by a concrete
cleanup-stop-delete teardown sequence that still leaves `/tmp/old`. -/
theorem C10_orphaned_scratch_directory_witness :
    ((CarbonClickhouse.Start
      { Version := "1.2.3", storeDir := "/tmp/old" } { dirs := ["/tmp/old"] }
      { port1 := ("127.0.0.1:10001", none), tempDir := ("/tmp/new", none),
        port2 := ("127.0.0.1:10002", none) }
      "/tests" "ch:8123" "ch").c).storeDir = "/tmp/new" ∧
    ("/tmp/old" : String) ∈ (CarbonClickhouse.Start
      { Version := "1.2.3", storeDir := "/tmp/old" } { dirs := ["/tmp/old"] }
      { port1 := ("127.0.0.1:10001", none), tempDir := ("/tmp/new", none),
        port2 := ("127.0.0.1:10002", none) }
      "/tests" "ch:8123" "ch").w.dirs ∧
    ("/tmp/old" : String) ∈ ((applyOps
      ((CarbonClickhouse.Start
        { Version := "1.2.3", storeDir := "/tmp/old" } { dirs := ["/tmp/old"] }
        { port1 := ("127.0.0.1:10001", none), tempDir := ("/tmp/new", none),
          port2 := ("127.0.0.1:10002", none) }
        "/tests" "ch:8123" "ch").c)
      ((CarbonClickhouse.Start
        { Version := "1.2.3", storeDir := "/tmp/old" } { dirs := ["/tmp/old"] }
        { port1 := ("127.0.0.1:10001", none), tempDir := ("/tmp/new", none),
          port2 := ("127.0.0.1:10002", none) }
        "/tests" "ch:8123" "ch").w)
      [TeardownOp.stop {} false, TeardownOp.del {}, TeardownOp.cleanup true]).2).dirs := by
  have h := C10_orphaned_scratch_directory
    { Version := "1.2.3", storeDir := "/tmp/old" } { dirs := ["/tmp/old"] }
    { port1 := ("127.0.0.1:10001", none), tempDir := ("/tmp/new", none),
      port2 := ("127.0.0.1:10002", none) }
    "/tests" "ch:8123" "ch" "/tmp/old"
    (by decide) rfl (by simp) (by decide) rfl rfl rfl rfl rfl rfl (by decide)
  exact ⟨h.1, h.2.2.1,
    h.2.2.2 [TeardownOp.stop {} false, TeardownOp.del {}, TeardownOp.cleanup true]⟩
